import Mathlib

/-!
Verification of the resilience layer of the car-api backend:
the OAuth token manager (`src/services/oauth.ts`), the retrying GraphQL
transport (`src/services/graphql-client.ts` with the error classes of
`src/utils/errors.ts`), and the simple Firebird connection pool
(`src/services/firebird-simple.ts`).

Each TypeScript function is shallowly embedded as an executable Lean
definition over explicit state; timestamps are `Int` milliseconds and the
JavaScript event-loop's run-to-completion semantics lets every synchronous
code region (no `await` inside) be modelled as one atomic step.
-/

namespace CarApi

/-! ## OAuth token manager (`src/services/oauth.ts`) -/

/-- `OAuthTokenInfo` as built by `performTokenRefresh` (oauth.ts lines 90-96). -/
structure OAuthTokenInfo where
  accessToken : String
  tokenType : String
  expiresAt : Int
  refreshTok : String
  scope : String
  deriving Repr, DecidableEq

/-- `OAuthService.TOKEN_REFRESH_BUFFER = 60000` (oauth.ts line 12). -/
def TOKEN_REFRESH_BUFFER : Int := 60000

/-- `isTokenExpiringSoon` (oauth.ts lines 122-128): true when no token is
cached, else `Date.now() >= expiresAt - TOKEN_REFRESH_BUFFER`. -/
def isTokenExpiringSoon (tokenInfo : Option OAuthTokenInfo) (now : Int) : Bool :=
  match tokenInfo with
  | none => true
  | some ti => now ≥ ti.expiresAt - TOKEN_REFRESH_BUFFER

/-- Whether `getValidToken` (oauth.ts lines 14-21) serves the cached token or
refreshes: the code refreshes when `!this.tokenInfo || this.isTokenExpiringSoon()`. -/
inductive TokenSource where
  | cached
  | refreshed
  deriving Repr, DecidableEq

/-- The branch taken by `getValidToken` (oauth.ts lines 14-21). -/
def getValidTokenSource (tokenInfo : Option OAuthTokenInfo) (now : Int) : TokenSource :=
  if tokenInfo.isNone || isTokenExpiringSoon tokenInfo now then .refreshed else .cached

/-- Token construction on a 200 response (oauth.ts lines 90-96):
`expiresAt = Date.now() + expires_in * 1000`. -/
def mkTokenInfo (now : Int) (accessToken tokenType : String) (expiresIn : Int) : OAuthTokenInfo :=
  { accessToken := accessToken
    tokenType := tokenType
    expiresAt := now + expiresIn * 1000
    refreshTok := ""
    scope := "" }

/-! ### State of the `OAuthService` singleton.

`refreshPromise` holds the identity (a serial number) of the in-flight
refresh promise; `httpRequests` counts outbound token HTTP requests
(each created promise runs exactly one `performTokenRefresh` request). -/

structure OAuthSt where
  tokenInfo : Option OAuthTokenInfo
  refreshPromise : Option Nat
  nextPromiseId : Nat
  httpRequests : Nat
  deriving Repr, DecidableEq

/-- The synchronous prefix of `refreshToken` (oauth.ts lines 23-28): the check
of `this.refreshPromise` and, when absent, its assignment to a fresh
`performTokenRefresh()` promise happen with no intervening `await`, so the
whole region is one atomic step of the event loop. Returns the promise the
caller will await. Creating the promise issues the one HTTP token request. -/
def refreshTokenEnter (s : OAuthSt) : OAuthSt × Nat :=
  match s.refreshPromise with
  | some p => (s, p)
  | none =>
    ({ s with
        refreshPromise := some s.nextPromiseId
        nextPromiseId := s.nextPromiseId + 1
        httpRequests := s.httpRequests + 1 },
      s.nextPromiseId)

/-- Run `n` concurrent `refreshToken` entries in scheduler order, collecting
the promise each caller awaits (oauth.ts lines 23-28 repeated). -/
def refreshTokenEnterAll (s : OAuthSt) : Nat → OAuthSt × List Nat
  | 0 => (s, [])
  | n + 1 =>
    let (s1, p) := refreshTokenEnter s
    let (s2, ps) := refreshTokenEnterAll s1 n
    (s2, p :: ps)

/-- The synchronous prefix of one `getValidToken` call (oauth.ts lines
14-21) at time `now`: when the cached token is absent or expiring soon the
caller invokes `refreshToken()` — still with no intervening `await`, so the
validity check and `refreshTokenEnter` form one atomic step — and will await
the returned promise (`some p`); otherwise it resolves at once with the
cached access token (`none`). -/
def getValidTokenEnter (s : OAuthSt) (now : Int) : OAuthSt × Option Nat :=
  match getValidTokenSource s.tokenInfo now with
  | .cached => (s, none)
  | .refreshed =>
    let (s', p) := refreshTokenEnter s
    (s', some p)

/-- `n` concurrent `getValidToken` calls entering in scheduler order at time
`now`, all before the refresh (if any) resolves; collects the promise each
caller awaits. -/
def getValidTokenEnterAll (s : OAuthSt) (now : Int) : Nat → OAuthSt × List (Option Nat)
  | 0 => (s, [])
  | n + 1 =>
    let (s1, p) := getValidTokenEnter s now
    let (s2, ps) := getValidTokenEnterAll s1 now n
    (s2, p :: ps)

/-- Outcome of the awaited `performTokenRefresh` promise. -/
inductive RefreshOutcome where
  | ok (ti : OAuthTokenInfo)
  | failed
  deriving Repr, DecidableEq

/-- Settlement of `refreshToken` (oauth.ts lines 30-36): on success the
resolved `tokenInfo` is stored; the `finally` block nulls `refreshPromise`
on success and failure alike, and a failure stores nothing. -/
def refreshTokenSettle (s : OAuthSt) (o : RefreshOutcome) : OAuthSt :=
  match o with
  | .ok ti => { s with tokenInfo := some ti, refreshPromise := none }
  | .failed => { s with refreshPromise := none }

/-- `clearToken` (oauth.ts lines 144-148). -/
def clearToken (s : OAuthSt) : OAuthSt :=
  { s with tokenInfo := none, refreshPromise := none }

/-! ## Error classes (`src/utils/errors.ts`)

Each subclass of `AppError` fixes its `statusCode` in its constructor:
`ValidationError` 400, `AuthenticationError` 401, `AuthorizationError` 403,
`NotFoundError` 404, `RateLimitError` 429, `ExternalServiceError` always 502
(whatever real status triggered it), `DatabaseError` 500. The stored message
is the formatted `super(...)` message. -/

inductive GError where
  | appError (msg : String) (statusCode : Nat)
  | validation (msg : String)
  | authenticationErr (msg : String)
  | authorizationErr (msg : String)
  | notFound (msg : String)
  | rateLimit (msg : String)
  | externalService (msg : String)
  | databaseErr (msg : String)
  deriving Repr, DecidableEq

/-- The `statusCode` field set by each constructor (errors.ts lines 36-130). -/
def GError.statusCode : GError → Nat
  | .appError _ c => c
  | .validation _ => 400
  | .authenticationErr _ => 401
  | .authorizationErr _ => 403
  | .notFound _ => 404
  | .rateLimit _ => 429
  | .externalService _ => 502
  | .databaseErr _ => 500

/-- `error instanceof AuthenticationError` (each error class is a distinct
subclass of `AppError`; none extends `AuthenticationError`). -/
def GError.isAuthenticationError : GError → Bool
  | .authenticationErr _ => true
  | _ => false

/-- `error instanceof ExternalServiceError`. -/
def GError.isExternalServiceError : GError → Bool
  | .externalService _ => true
  | _ => false

/-- `ExternalServiceError` constructor (errors.ts lines 99-117): the message
becomes `service + " service error: " + message` and the status code is
hard-wired to 502. -/
def mkExternalServiceError (service msg : String) : GError :=
  .externalService (service ++ " service error: " ++ msg)

/-- `createErrorFromStatusCode` (errors.ts lines 147-169). -/
def createErrorFromStatusCode (statusCode : Nat) (msg : String) : GError :=
  match statusCode with
  | 400 => .validation msg
  | 401 => .authenticationErr msg
  | 403 => .authorizationErr msg
  | 404 => .notFound (msg ++ " not found")
  | 429 => .rateLimit msg
  | 502 => mkExternalServiceError "External Service" msg
  | 503 => mkExternalServiceError "External Service" msg
  | 504 => mkExternalServiceError "External Service" msg
  | c => .appError msg c

/-! ## GraphQL transport (`src/services/graphql-client.ts`) -/

/-- The retry guard of `performRequest`'s catch block (graphql-client.ts
lines 177-182): break out of the retry loop on `AuthenticationError`, or on
an `ExternalServiceError` whose `statusCode` lies in `[400, 500)` and is not
429. (`ExternalServiceError.statusCode` is always 502, so the second
disjunct can never hold.) -/
def shouldBreak (e : GError) : Bool :=
  e.isAuthenticationError ||
    (e.isExternalServiceError && decide (400 ≤ e.statusCode) &&
      decide (e.statusCode < 500) && decide (e.statusCode ≠ 429))

/-- Outcome of one `performRequest` call: the parsed response, or the error
finally thrown. -/
inductive ReqOutcome where
  | ok
  | err (e : GError)
  deriving Repr, DecidableEq

/-- Observable trace of one `performRequest` call: number of HTTP attempts
performed, the sleeps (ms) in order, `clearToken` call count, and the final
outcome. -/
structure Trace where
  attempts : Nat
  delays : List Nat
  clearTokenCalls : Nat
  result : ReqOutcome
  deriving Repr, DecidableEq

/-- Prefix a trace with the contribution of the current loop iteration. -/
def consTrace (reqs : Nat) (ds : List Nat) (clears : Nat) (t : Trace) : Trace :=
  { attempts := reqs + t.attempts
    delays := ds ++ t.delays
    clearTokenCalls := clears + t.clearTokenCalls
    result := t.result }

/-- The retry loop of `performRequest` (graphql-client.ts lines 104-196),
over the list of remaining attempt indices (the for-loop runs
`attempt = 0 .. retryAttempts`). `statuses i` is the HTTP status code the
`i`-th attempt observes. On entering an iteration with `attempt > 0` the
code first sleeps `retryDelay * 2 ^ (attempt - 1)`. Status handling:
401/403 on attempt 0 clears the token and continues (no sleep of its own,
no error recorded); 401/403 later throws `AuthenticationError`; `>= 500`
throws `ExternalServiceError`; 429 below the budget sleeps
`max(5000, retryDelay * 2 ^ attempt)` and continues, at the budget throws
`RateLimitError`; any other non-200 throws `createErrorFromStatusCode`;
200 succeeds. A thrown error is caught: it becomes `lastError`, the loop
breaks when `shouldBreak` holds or `attempt = retryAttempts`, and after a
break or an exhausted loop `lastError` is re-thrown unchanged (a never-set
`lastError` yields the generic `ExternalServiceError`). -/
def performRequestLoop (retryAttempts retryDelay : Nat) (statuses : Nat → Nat) :
    Option GError → List Nat → Trace
  | lastError, [] =>
    { attempts := 0, delays := [], clearTokenCalls := 0
      result := .err (lastError.getD
        (mkExternalServiceError "GraphQL API" "Request failed after all retry attempts")) }
  | lastError, attempt :: rest =>
    let backoff : List Nat := if attempt = 0 then [] else [retryDelay * 2 ^ (attempt - 1)]
    let s := statuses attempt
    if s = 401 ∨ s = 403 then
      if attempt = 0 then
        consTrace 1 backoff 1 (performRequestLoop retryAttempts retryDelay statuses lastError rest)
      else
        { attempts := 1, delays := backoff, clearTokenCalls := 0
          result := .err (.authenticationErr "GraphQL API authentication failed") }
    else if 500 ≤ s then
      let e := mkExternalServiceError "GraphQL API" ("Server error: " ++ toString s)
      if shouldBreak e || attempt = retryAttempts then
        { attempts := 1, delays := backoff, clearTokenCalls := 0, result := .err e }
      else
        consTrace 1 backoff 0 (performRequestLoop retryAttempts retryDelay statuses (some e) rest)
    else if s = 429 then
      if attempt < retryAttempts then
        consTrace 1 (backoff ++ [Nat.max (5 * 1000) (retryDelay * 2 ^ attempt)])
          0 (performRequestLoop retryAttempts retryDelay statuses lastError rest)
      else
        let e := createErrorFromStatusCode 429 "Rate limit exceeded"
        { attempts := 1, delays := backoff, clearTokenCalls := 0, result := .err e }
    else if s ≠ 200 then
      let e := createErrorFromStatusCode s ("GraphQL request failed with status " ++ toString s)
      if shouldBreak e || attempt = retryAttempts then
        { attempts := 1, delays := backoff, clearTokenCalls := 0, result := .err e }
      else
        consTrace 1 backoff 0 (performRequestLoop retryAttempts retryDelay statuses (some e) rest)
    else
      { attempts := 1, delays := backoff, clearTokenCalls := 0, result := .ok }

/-- One whole `performRequest` call with the given retry configuration
(defaults in the code: `retryAttempts = 3`, `retryDelay = 1000`): the loop
runs over attempt indices `0 .. retryAttempts`. -/
def performRequest (retryAttempts retryDelay : Nat) (statuses : Nat → Nat) : Trace :=
  performRequestLoop retryAttempts retryDelay statuses none (List.range (retryAttempts + 1))

/-! ## Simple Firebird pool (`src/services/firebird-simple.ts`)

`SimpleFirebirdService` keeps `connectionPool` (a JS array used as a stack:
`push`/`pop` at the same end — here the list head), `connectionQueue` (FIFO:
`push` at the tail, `shift` from the head) and `maxConnections = 5`.
Connections are identified by serial numbers. The fields `leased`,
`attachCount` and `detachCount` are instrumentation added by the model to
observe physical-connection accounting: `leased` counts connections
currently granted to a caller, `attachCount` counts `Firebird.attach`
calls, `detachCount` counts `connection.detach()` calls. -/

structure PoolSt where
  connectionPool : List Nat
  connectionQueue : List Nat
  maxConnections : Nat
  nextConnId : Nat
  leased : Nat
  attachCount : Nat
  detachCount : Nat
  deriving Repr, DecidableEq

/-- The pool as constructed by the service (firebird-simple.ts lines 76-78):
empty idle list, empty queue, `maxConnections = 5`. -/
def initialPool : PoolSt :=
  { connectionPool := []
    connectionQueue := []
    maxConnections := 5
    nextConnId := 0
    leased := 0
    attachCount := 0
    detachCount := 0 }

/-- `idle + leased` live-connection count of a pool state. -/
def PoolSt.idlePlusLeased (s : PoolSt) : Nat :=
  s.connectionPool.length + s.leased

/-- How a `getConnection` promise settles from the caller's view. -/
inductive AcquireResult where
  | granted (c : Nat)
  | queued
  | attachFailed
  deriving Repr, DecidableEq

/-- `getConnection` (firebird-simple.ts lines 80-107): pop an idle
connection when the pool array is non-empty; else, when
`connectionQueue.length >= maxConnections`, push the caller (identified by
`w`) onto the waiter queue; else call `Firebird.attach` — `attachOk` says
whether the attach callback reports success — and resolve with the fresh
connection or reject with a `DatabaseError`. -/
def getConnection (s : PoolSt) (w : Nat) (attachOk : Bool) : PoolSt × AcquireResult :=
  match s.connectionPool with
  | c :: rest =>
    ({ s with connectionPool := rest, leased := s.leased + 1 }, .granted c)
  | [] =>
    if s.maxConnections ≤ s.connectionQueue.length then
      ({ s with connectionQueue := s.connectionQueue ++ [w] }, .queued)
    else if attachOk then
      ({ s with
          nextConnId := s.nextConnId + 1
          leased := s.leased + 1
          attachCount := s.attachCount + 1 },
        .granted s.nextConnId)
    else
      (s, .attachFailed)

/-- What `releaseConnection` did with the connection. -/
inductive ReleaseAction where
  | handedToWaiter (w : Nat)
  | pooled
  | tornDown
  deriving Repr, DecidableEq

/-- `releaseConnection` (firebird-simple.ts lines 109-124): a non-empty
waiter queue is served first — `shift()` removes the oldest waiter and the
connection is resolved directly to it (the lease transfers, the idle list is
untouched); with no waiters the connection is pushed onto the idle list when
`connectionPool.length < maxConnections`, else detached. -/
def releaseConnection (s : PoolSt) (c : Nat) : PoolSt × ReleaseAction :=
  match s.connectionQueue with
  | w :: rest =>
    ({ s with connectionQueue := rest }, .handedToWaiter w)
  | [] =>
    if s.connectionPool.length < s.maxConnections then
      ({ s with connectionPool := c :: s.connectionPool, leased := s.leased - 1 }, .pooled)
    else
      ({ s with leased := s.leased - 1, detachCount := s.detachCount + 1 }, .tornDown)

/-- Run `n` back-to-back `getConnection` calls (every attach succeeding),
as issued by `n` concurrent callers with nothing released in between;
each `getConnection` body runs synchronously inside its `Promise` executor,
so the calls take effect in scheduler order. -/
def acquireN (s : PoolSt) : Nat → PoolSt
  | 0 => s
  | n + 1 => acquireN (getConnection s n true).1 n

/-- Environment outcome of the one `connection.query` callback inside
`executeQuery`. -/
inductive QueryOutcome where
  | ok (rows : List Nat)
  | queryErr (msg : String)
  deriving Repr, DecidableEq

/-- How an `executeQuery` call settles. -/
inductive ExecResult where
  | success (rows : List Nat) (count : Nat)
  | dbError
  | acquireFailed
  | suspended
  deriving Repr, DecidableEq

/-- `executeQuery` (firebird-simple.ts lines 126-174): acquire via
`getConnection`; if acquisition rejects, the `catch` sees `connection` still
null and re-throws without releasing; if the caller is queued the call stays
suspended until some release serves it (modelled as `.suspended`); otherwise
the single `query` callback either rejects with a `DatabaseError` after
`releaseConnection(connection)` or resolves `{rows, count: rows.length,
executionTime}` after `releaseConnection(connection)`. -/
def executeQuery (s : PoolSt) (attachOk : Bool) (q : QueryOutcome) : PoolSt × ExecResult :=
  match getConnection s 0 attachOk with
  | (s1, .granted c) =>
    match q with
    | .queryErr _ => ((releaseConnection s1 c).1, .dbError)
    | .ok rows => ((releaseConnection s1 c).1, .success rows rows.length)
  | (s1, .queued) => (s1, .suspended)
  | (s1, .attachFailed) => (s1, .acquireFailed)

/-- `closeAllConnections` (firebird-simple.ts lines 186-202): detach every
pooled idle connection, then reject every queued waiter with
`Error('Service shutting down')`; returns the new state together with the
list of waiters so rejected. -/
def closeAllConnections (s : PoolSt) : PoolSt × List Nat :=
  ({ s with
      connectionPool := []
      connectionQueue := []
      detachCount := s.detachCount + s.connectionPool.length },
    s.connectionQueue)

/-- `destroy` (firebird-simple.ts lines 204-206): the method only logs
`'Firebird service destroyed'`; the pool state is untouched. -/
def destroy (s : PoolSt) : PoolSt :=
  s

/-! ## Helper lemmas -/

/-- Entering `refreshToken` never touches the cached token. -/
lemma refreshTokenEnter_tokenInfo (s : OAuthSt) :
    (refreshTokenEnter s).1.tokenInfo = s.tokenInfo := by
  unfold refreshTokenEnter
  cases s.refreshPromise <;> simp

/-- While a refresh promise is in flight and the cached token stays invalid,
every further `getValidToken` entry joins that same promise and leaves the
state unchanged. -/
lemma getValidTokenEnterAll_inflight (s : OAuthSt) (now : Int) (p : Nat)
    (hsrc : getValidTokenSource s.tokenInfo now = .refreshed)
    (hp : s.refreshPromise = some p) :
    ∀ n, getValidTokenEnterAll s now n = (s, List.replicate n (some p)) := by
  intro n
  induction n with
  | zero => simp [getValidTokenEnterAll]
  | succ n ih =>
    simp [getValidTokenEnterAll, getValidTokenEnter, hsrc, refreshTokenEnter, hp, ih,
      List.replicate_succ]

/-! ## Claim theorems -/

/-- C1: single-flight token refresh — for every `n ≥ 1` concurrent
`getValidToken()` calls issued while no valid token is cached (and no
refresh is yet in flight), exactly one outbound token HTTP request is
performed, and every caller awaits the one promise `s.nextPromiseId`
created by the first entrant (so all resolve to that promise's single
access token). -/
theorem single_flight_token_refresh (s : OAuthSt) (now : Int) (n : Nat)
    (hvalid : getValidTokenSource s.tokenInfo now = .refreshed)
    (hp : s.refreshPromise = none) (hn : 1 ≤ n) :
    (getValidTokenEnterAll s now n).1.httpRequests = s.httpRequests + 1 ∧
    (getValidTokenEnterAll s now n).2 = List.replicate n (some s.nextPromiseId) := by
  obtain ⟨m, rfl⟩ : ∃ m, n = m + 1 := ⟨n - 1, by omega⟩
  have h1 : getValidTokenEnter s now =
      ({ s with
          refreshPromise := some s.nextPromiseId
          nextPromiseId := s.nextPromiseId + 1
          httpRequests := s.httpRequests + 1 }, some s.nextPromiseId) := by
    simp [getValidTokenEnter, hvalid, refreshTokenEnter, hp]
  have h2 := getValidTokenEnterAll_inflight
    { s with
        refreshPromise := some s.nextPromiseId
        nextPromiseId := s.nextPromiseId + 1
        httpRequests := s.httpRequests + 1 } now s.nextPromiseId (by simpa using hvalid) rfl m
  simp [getValidTokenEnterAll, h1, h2, List.replicate_succ]

/-- Witness for C1 at a concrete state: three concurrent calls with an empty
cache issue exactly one HTTP request and all await promise 7. -/
theorem single_flight_token_refresh_witness :
    (getValidTokenEnterAll ⟨none, none, 7, 0⟩ 0 3).1.httpRequests = 0 + 1 ∧
    (getValidTokenEnterAll ⟨none, none, 7, 0⟩ 0 3).2 = List.replicate 3 (some 7) :=
  single_flight_token_refresh ⟨none, none, 7, 0⟩ 0 3 (by decide) rfl (by decide)

/-- C2 counterexample: for a token with `expiresAt = t0 + expires_in*1000`
(`t0 = 0`, `expires_in = 3600`), `getValidToken` at
`now = expiresAt - 60001` serves the CACHED token, not a refreshed one, and
at `now = expiresAt - 59999` it REFRESHES — the claim states the two
boundaries the other way round. -/
theorem expiry_boundary_counterexample :
    ¬ (getValidTokenSource (some (mkTokenInfo 0 "tok" "Bearer" 3600))
          (0 + 3600 * 1000 - 60001) = .refreshed ∧
       getValidTokenSource (some (mkTokenInfo 0 "tok" "Bearer" 3600))
          (0 + 3600 * 1000 - 59999) = .cached) := by
  decide

/-- C2 amended: for a cached token with `expiresAt = t0 + expires_in*1000`
and refresh buffer 60 000 ms, `getValidToken()` at
`now = expiresAt - 60001` returns the cached token, and at
`now = expiresAt - 59999` it returns a refreshed token. -/
theorem expiry_boundary (t0 expiresIn : Int) (acc typ : String) :
    getValidTokenSource (some (mkTokenInfo t0 acc typ expiresIn))
        (t0 + expiresIn * 1000 - 60001) = .cached ∧
    getValidTokenSource (some (mkTokenInfo t0 acc typ expiresIn))
        (t0 + expiresIn * 1000 - 59999) = .refreshed := by
  have h1 : isTokenExpiringSoon (some (mkTokenInfo t0 acc typ expiresIn))
      (t0 + expiresIn * 1000 - 60001) = false := by
    simp [isTokenExpiringSoon, mkTokenInfo, TOKEN_REFRESH_BUFFER]
    omega
  have h2 : isTokenExpiringSoon (some (mkTokenInfo t0 acc typ expiresIn))
      (t0 + expiresIn * 1000 - 59999) = true := by
    simp [isTokenExpiringSoon, mkTokenInfo, TOKEN_REFRESH_BUFFER]
    omega
  exact ⟨by simp [getValidTokenSource, h1], by simp [getValidTokenSource, h2]⟩

/-- C4 counterexample: with the default `retryAttempts = 3`,
`retryDelay = 1000` and a server answering 401 on the first attempt and 500
afterwards, the retry following the first-attempt 401 is preceded by a
1000 ms backoff sleep — not the zero delay the claim states — and only 4
HTTP attempts occur in total, not the 5 that a 401 retry exempt from the
retry budget would give. -/
theorem auth_retry_counterexample :
    (performRequest 3 1000 (fun i => if i = 0 then 401 else 500)).delays.head? = some 1000 ∧
    some (1000 : Nat) ≠ some 0 ∧
    (performRequest 3 1000 (fun i => if i = 0 then 401 else 500)).attempts = 4 ∧
    (performRequest 3 1000 (fun i => if i = 0 then 401 else 500)).clearTokenCalls = 1 := by
  decide

/-- C4 amended: a 401/403 on the first attempt triggers `clearToken()` and
exactly one retry; that retry is preceded by the standard backoff sleep
`retryDelay * 2 ^ 0 = retryDelay` (not zero) and consumes an attempt index
of the shared retry budget; a second consecutive 401/403 raises
`AuthenticationError` with no third attempt. -/
theorem auth_retry_once (r d : Nat) (hr : 1 ≤ r) :
    performRequest r d (fun _ => 401) =
      { attempts := 2, delays := [d], clearTokenCalls := 1
        result := .err (.authenticationErr "GraphQL API authentication failed") } := by
  obtain ⟨m, rfl⟩ : ∃ m, r = m + 1 := ⟨r - 1, by omega⟩
  have hrange : List.range (m + 1 + 1) = 0 :: 1 :: List.map (Nat.succ ∘ Nat.succ) (List.range m) := by
    rw [List.range_succ_eq_map, List.range_succ_eq_map, List.map_cons, List.map_map]
  simp [performRequest, hrange, performRequestLoop, consTrace]

/-- Witness for C4 amended at the default configuration. -/
theorem auth_retry_once_witness :
    performRequest 3 1000 (fun _ => 401) =
      { attempts := 2, delays := [1000], clearTokenCalls := 1
        result := .err (.authenticationErr "GraphQL API authentication failed") } :=
  auth_retry_once 3 1000 (by decide)

/-- C5: with `retryAttempts = 3` and every attempt answered 500, exactly 4
HTTP attempts occur, the sleeps are `d, 2d, 4d` (`retryDelay * 2 ^ (i-1)`
before attempt `i`, hence non-decreasing), and the error of the last
attempt is re-thrown unchanged as the final outcome. -/
theorem retry_budget_500 (d : Nat) :
    performRequest 3 d (fun _ => 500) =
      { attempts := 4, delays := [d, 2 * d, 4 * d], clearTokenCalls := 0
        result := .err (mkExternalServiceError "GraphQL API" "Server error: 500") } ∧
    List.Chain' (· ≤ ·) (performRequest 3 d (fun _ => 500)).delays := by
  have hr : List.range 4 = [0, 1, 2, 3] := rfl
  have h : performRequest 3 d (fun _ => 500) =
      { attempts := 4, delays := [d, 2 * d, 4 * d], clearTokenCalls := 0
        result := .err (mkExternalServiceError "GraphQL API" "Server error: 500") } := by
    simp only [performRequest, hr]
    simp [performRequestLoop, consTrace, shouldBreak, mkExternalServiceError,
      GError.isAuthenticationError, GError.isExternalServiceError, GError.statusCode]
    ring_nf
    simp
    rfl
  refine ⟨h, ?_⟩
  rw [h]
  simp [List.chain'_cons]
  omega

/-- C6: the code violates the claim — with `retryAttempts = 3` and a server
answering 400 (a non-retryable client error per the spec and per the
catch-block's own comment) on every attempt, the transport performs 4 HTTP
attempts with backoff sleeps instead of failing after one:
`ValidationError` (statusCode 400) is neither an `AuthenticationError` nor
an `ExternalServiceError`, so the no-retry guard of the catch block can
never fire on it. -/
theorem non_retryable_4xx_bug :
    performRequest 3 1000 (fun _ => 400) =
      { attempts := 4, delays := [1000, 2000, 4000], clearTokenCalls := 0
        result := .err (.validation "GraphQL request failed with status 400") } ∧
    shouldBreak (createErrorFromStatusCode 400 "GraphQL request failed with status 400") = false := by
  exact ⟨rfl, rfl⟩

/-- C3: the code violates the claim — from a fresh pool (`max = 5`, no idle
connection, no waiter), 6 back-to-back `getConnection` calls with nothing
released attach 6 physical connections and queue nobody: the guard compares
the WAITER-QUEUE length against `maxConnections` and no leased count
exists, so `leased + idle ≤ max` fails (6 > 5) and the sixth caller is
never enqueued. -/
theorem bounded_pool_bug :
    (acquireN initialPool 6).attachCount = 6 ∧
    (acquireN initialPool 6).connectionQueue = [] ∧
    (acquireN initialPool 6).idlePlusLeased = 6 ∧
    ¬ (acquireN initialPool 6).idlePlusLeased ≤ initialPool.maxConnections := by
  decide

/-- C7: `releaseConnection` with a non-empty waiter queue hands the
connection directly to the oldest (first-enqueued) waiter — the idle list is
untouched, so a release that satisfies a waiter never increases the idle
count; only with no waiters is the connection pushed onto the idle list
(when its length is under `maxConnections`) or torn down. -/
theorem release_fifo_handoff (s : PoolSt) (c : Nat) :
    match s.connectionQueue with
    | w :: rest =>
      (releaseConnection s c).2 = .handedToWaiter w ∧
      (releaseConnection s c).1.connectionPool = s.connectionPool ∧
      (releaseConnection s c).1.connectionQueue = rest
    | [] =>
      if s.connectionPool.length < s.maxConnections then
        (releaseConnection s c).2 = .pooled ∧
        (releaseConnection s c).1.connectionPool = c :: s.connectionPool
      else
        (releaseConnection s c).2 = .tornDown ∧
        (releaseConnection s c).1.connectionPool = s.connectionPool ∧
        (releaseConnection s c).1.detachCount = s.detachCount + 1 := by
  cases hq : s.connectionQueue with
  | nil =>
    by_cases hlt : s.connectionPool.length < s.maxConnections <;>
      simp [releaseConnection, hq, hlt]
  | cons w rest => simp [releaseConnection, hq]

/-- C8 counterexample: from a fresh empty pool, a failing `executeQuery`
attaches a connection and releases it into the idle list, so once the call
resolves `idle + leased` equals 1 where it was 0 before — the count is NOT
unchanged across a failing call that had to create a physical connection. -/
theorem guaranteed_release_counterexample :
    initialPool.idlePlusLeased = 0 ∧
    (executeQuery initialPool true (.queryErr "boom")).2 = .dbError ∧
    (executeQuery initialPool true (.queryErr "boom")).1.idlePlusLeased = 1 := by
  decide

/-- C8 amended: `executeQuery` releases its connection on every resolving
exit path. When the connection came from the idle list, `idle + leased` is
unchanged across the call, failing or not; when the pool was empty and a
fresh connection was attached, the count grows by exactly one, the fresh
connection ending pooled or serving a waiter rather than leaking; a failed
attach resolves with the state untouched; a successful call returns
`count = rows.length`. (`hcap` is the invariant the push-guard of
`releaseConnection` maintains on every reachable state.) -/
theorem guaranteed_release (s : PoolSt) (q : QueryOutcome) (m : String) (rows : List Nat)
    (hcap : s.connectionPool.length ≤ s.maxConnections) :
    (s.connectionPool ≠ [] →
      (executeQuery s true q).1.idlePlusLeased = s.idlePlusLeased ∧
      (executeQuery s true (.queryErr m)).2 = .dbError ∧
      (executeQuery s true (.ok rows)).2 = .success rows rows.length) ∧
    (s.connectionPool = [] → s.connectionQueue.length < s.maxConnections →
      (executeQuery s true q).1.idlePlusLeased = s.idlePlusLeased + 1 ∧
      (executeQuery s true (.ok rows)).2 = .success rows rows.length ∧
      (executeQuery s false q).1 = s ∧
      (executeQuery s false q).2 = .acquireFailed) := by
  constructor
  · intro hne
    obtain ⟨c, rest, hpool⟩ : ∃ c rest, s.connectionPool = c :: rest := by
      cases h : s.connectionPool with
      | nil => exact absurd h hne
      | cons c rest => exact ⟨c, rest, rfl⟩
    have hrest : rest.length < s.maxConnections := by
      have := hcap
      rw [hpool] at this
      simp at this
      omega
    cases hq : s.connectionQueue with
    | nil =>
      cases q <;>
        simp [executeQuery, getConnection, releaseConnection, hpool, hq, hrest,
          PoolSt.idlePlusLeased]
    | cons w ws =>
      cases q <;>
        simp [executeQuery, getConnection, releaseConnection, hpool, hq,
          PoolSt.idlePlusLeased] <;> omega
  · intro hpool hq
    have hmax : 0 < s.maxConnections := by omega
    cases hqq : s.connectionQueue with
    | nil =>
      have hm0 : ¬ s.maxConnections = 0 := by omega
      cases q <;>
        simp [executeQuery, getConnection, releaseConnection, hpool, hqq, hm0, hmax,
          PoolSt.idlePlusLeased] <;> omega
    | cons w ws =>
      have hnq : ¬ s.maxConnections ≤ ws.length + 1 := by
        rw [hqq] at hq
        simp at hq
        omega
      cases q <;>
        simp [executeQuery, getConnection, releaseConnection, hpool, hqq, hnq,
          PoolSt.idlePlusLeased] <;> omega

/-- Witness for C8 amended: a pool holding one idle connection keeps
`idle + leased = 2` across a failing call, and a fresh empty pool resolves a
failing attach with its state untouched. -/
theorem guaranteed_release_witness :
    ((⟨[4], [], 5, 9, 1, 0, 0⟩ : PoolSt).connectionPool ≠ [] →
      (executeQuery ⟨[4], [], 5, 9, 1, 0, 0⟩ true (.queryErr "boom")).1.idlePlusLeased
          = (⟨[4], [], 5, 9, 1, 0, 0⟩ : PoolSt).idlePlusLeased ∧
      (executeQuery ⟨[4], [], 5, 9, 1, 0, 0⟩ true (.queryErr "boom")).2 = .dbError ∧
      (executeQuery ⟨[4], [], 5, 9, 1, 0, 0⟩ true (.ok [1, 2])).2 = .success [1, 2] 2) ∧
    ((⟨[4], [], 5, 9, 1, 0, 0⟩ : PoolSt).connectionPool = [] →
      (⟨[4], [], 5, 9, 1, 0, 0⟩ : PoolSt).connectionQueue.length
          < (⟨[4], [], 5, 9, 1, 0, 0⟩ : PoolSt).maxConnections →
      (executeQuery ⟨[4], [], 5, 9, 1, 0, 0⟩ true (.queryErr "boom")).1.idlePlusLeased
          = (⟨[4], [], 5, 9, 1, 0, 0⟩ : PoolSt).idlePlusLeased + 1 ∧
      (executeQuery ⟨[4], [], 5, 9, 1, 0, 0⟩ true (.ok [1, 2])).2 = .success [1, 2] 2 ∧
      (executeQuery ⟨[4], [], 5, 9, 1, 0, 0⟩ false (.queryErr "boom")).1
          = (⟨[4], [], 5, 9, 1, 0, 0⟩ : PoolSt) ∧
      (executeQuery ⟨[4], [], 5, 9, 1, 0, 0⟩ false (.queryErr "boom")).2 = .acquireFailed) :=
  guaranteed_release ⟨[4], [], 5, 9, 1, 0, 0⟩ (.queryErr "boom") "boom" [1, 2] (by decide)

/-- C9 counterexample: after `destroy()` on a pool with one idle connection
and one queued waiter, nothing has changed — the idle connection is not
detached, the waiter is not rejected, and a new acquire still succeeds
(granting the idle connection) instead of failing fast with a pool-closed
error. -/
theorem destroy_counterexample :
    destroy ⟨[3], [8], 5, 9, 4, 0, 0⟩ = (⟨[3], [8], 5, 9, 4, 0, 0⟩ : PoolSt) ∧
    (destroy ⟨[3], [8], 5, 9, 4, 0, 0⟩).connectionPool = [3] ∧
    (destroy ⟨[3], [8], 5, 9, 4, 0, 0⟩).connectionQueue = [8] ∧
    (getConnection (destroy ⟨[3], [8], 5, 9, 4, 0, 0⟩) 0 true).2 = .granted 3 := by
  decide

/-- C9 amended: `destroy()` only logs — the pool state is unchanged and new
acquisitions still succeed. The drain/reject behaviour lives in
`closeAllConnections()`: it detaches every idle connection and rejects every
queued waiter with a shutdown error, though it too leaves future acquires
enabled. -/
theorem destroy_vs_close_all (s : PoolSt) :
    destroy s = s ∧
    (closeAllConnections s).1.connectionPool = [] ∧
    (closeAllConnections s).1.connectionQueue = [] ∧
    (closeAllConnections s).1.detachCount = s.detachCount + s.connectionPool.length ∧
    (closeAllConnections s).2 = s.connectionQueue := by
  simp [destroy, closeAllConnections]

/-- C10: whatever way `refreshToken` settles, the `finally` block resets the
in-flight marker to `none`; a failed refresh leaves the cached token
untouched (never caches the failure); and the next `refreshToken` call
after settlement issues a fresh HTTP token request. -/
theorem refresh_settlement_resets_inflight (s : OAuthSt) (ti : OAuthTokenInfo) :
    (refreshTokenSettle s (.ok ti)).refreshPromise = none ∧
    (refreshTokenSettle s .failed).refreshPromise = none ∧
    (refreshTokenSettle s .failed).tokenInfo = s.tokenInfo ∧
    (refreshTokenEnter (refreshTokenSettle s .failed)).1.httpRequests = s.httpRequests + 1 ∧
    (refreshTokenEnter (refreshTokenSettle s (.ok ti))).1.httpRequests = s.httpRequests + 1 := by
  simp [refreshTokenSettle, refreshTokenEnter]

end CarApi
